import Mathlib

/-!
Shallow embedding of the grindstone pomodoro timer core.

Sources: `src/timer/pomodoro.rs` (timer engine), `src/app.rs` (session
lifecycle and tick orchestration), `src/models/session.rs` (Config and
Session), `src/config.rs` (default constants), `src/clock.rs` (clock
contract).

Modelling conventions:
- `std::time::Duration` values and monotonic `Instant`s are modelled in
  whole seconds as `Nat`; `Instant::now()` is threaded through the
  operations as an explicit argument `mono_now : Nat`, and
  `started.elapsed()` becomes truncated subtraction `mono_now - started`
  (matching Rust's saturating behaviour of `Instant::elapsed`).
- `Timestamp` (`i64` Unix seconds) is modelled as `Int`; the clock's
  `now_timestamp()` is threaded through as an explicit argument
  `ts_now : Int`.
- Rust integer casts are explicit: `i64 as u8`, `i64 as u64` and
  `u64 as i64` are the functions `i64_to_u8`, `i64_to_u64`, `u64_to_i64`
  below; the `u8` increment in `advance_phase` is taken modulo 256.
- The database handle `db: Option<Box<dyn DatabaseOps>>` is modelled as
  `Option Bool`: `none` means no database, `some ok` means a database
  whose `save_session` call returns `Ok` iff `ok`.  Operations return,
  next to the new state, the list of sessions passed to `save_session`
  (in call order), so that "what was persisted" is observable.
-/

/-- `TimerPhase` from `src/timer/pomodoro.rs`. -/
inductive TimerPhase
  | Work
  | ShortBreak
  | LongBreak
deriving DecidableEq

/-- `TimerPhase::is_break`. -/
def TimerPhase.is_break : TimerPhase → Bool
  | TimerPhase.ShortBreak => true
  | TimerPhase.LongBreak => true
  | TimerPhase.Work => false

/-- `TimerState` from `src/timer/pomodoro.rs` (durations/instants in whole seconds). -/
inductive TimerState
  | Idle
  | Running (started : Nat) (elapsed_before_pause : Nat)
  | Paused (elapsed : Nat)
deriving DecidableEq

/-- `PomodoroTimer` from `src/timer/pomodoro.rs`. `sessions_until_long` and
`sessions_completed` are `u8` in the source; they are modelled as `Nat`,
with every write site applying the source's `u8` semantics. -/
structure PomodoroTimer where
  phase : TimerPhase
  state : TimerState
  work_duration : Nat
  short_break : Nat
  long_break : Nat
  sessions_until_long : Nat
  sessions_completed : Nat
deriving DecidableEq

/-- `DEFAULT_WORK_DURATION` from `src/config.rs` (25 minutes, in seconds). -/
def DEFAULT_WORK_DURATION : Nat := 25 * 60

/-- `DEFAULT_SHORT_BREAK` from `src/config.rs`. -/
def DEFAULT_SHORT_BREAK : Nat := 5 * 60

/-- `DEFAULT_LONG_BREAK` from `src/config.rs`. -/
def DEFAULT_LONG_BREAK : Nat := 15 * 60

/-- `SESSIONS_UNTIL_LONG_BREAK` from `src/config.rs`. -/
def SESSIONS_UNTIL_LONG_BREAK : Nat := 4

/-- `impl Default for PomodoroTimer`. -/
def PomodoroTimer.default : PomodoroTimer :=
  { phase := TimerPhase.Work
    state := TimerState.Idle
    work_duration := DEFAULT_WORK_DURATION
    short_break := DEFAULT_SHORT_BREAK
    long_break := DEFAULT_LONG_BREAK
    sessions_until_long := SESSIONS_UNTIL_LONG_BREAK
    sessions_completed := 0 }

/-- `PomodoroTimer::new`. -/
def PomodoroTimer.new : PomodoroTimer := PomodoroTimer.default

/-- `PomodoroTimer::current_phase_duration`. -/
def PomodoroTimer.current_phase_duration (t : PomodoroTimer) : Nat :=
  match t.phase with
  | TimerPhase.Work => t.work_duration
  | TimerPhase.ShortBreak => t.short_break
  | TimerPhase.LongBreak => t.long_break

/-- `PomodoroTimer::elapsed`; `mono_now` is the current monotonic instant
(`Instant::now()` read inside `started.elapsed()`). -/
def PomodoroTimer.elapsed (t : PomodoroTimer) (mono_now : Nat) : Nat :=
  match t.state with
  | TimerState.Idle => 0
  | TimerState.Running started elapsed_before_pause =>
      elapsed_before_pause + (mono_now - started)
  | TimerState.Paused elapsed => elapsed

/-- `PomodoroTimer::remaining` (`saturating_sub` is `Nat` subtraction). -/
def PomodoroTimer.remaining (t : PomodoroTimer) (mono_now : Nat) : Nat :=
  t.current_phase_duration - t.elapsed mono_now

/-- `PomodoroTimer::is_finished`. -/
def PomodoroTimer.is_finished (t : PomodoroTimer) (mono_now : Nat) : Bool :=
  decide (t.current_phase_duration ≤ t.elapsed mono_now)

/-- `PomodoroTimer::is_running`. -/
def PomodoroTimer.is_running (t : PomodoroTimer) : Bool :=
  match t.state with
  | TimerState.Running _ _ => true
  | _ => false

/-- `PomodoroTimer::is_paused`. -/
def PomodoroTimer.is_paused (t : PomodoroTimer) : Bool :=
  match t.state with
  | TimerState.Paused _ => true
  | _ => false

/-- `PomodoroTimer::is_idle`. -/
def PomodoroTimer.is_idle (t : PomodoroTimer) : Bool :=
  match t.state with
  | TimerState.Idle => true
  | _ => false

/-- `PomodoroTimer::start`; `mono_now` stands for the `Instant::now()` read
at the call. -/
def PomodoroTimer.start (t : PomodoroTimer) (mono_now : Nat) : PomodoroTimer :=
  match t.state with
  | TimerState.Idle =>
      { t with state := TimerState.Running mono_now 0 }
  | TimerState.Paused elapsed =>
      { t with state := TimerState.Running mono_now elapsed }
  | TimerState.Running _ _ => t

/-- `PomodoroTimer::pause`; the stored value is `self.elapsed()` computed at
the instant `mono_now` of the call. -/
def PomodoroTimer.pause (t : PomodoroTimer) (mono_now : Nat) : PomodoroTimer :=
  match t.state with
  | TimerState.Running _ _ =>
      { t with state := TimerState.Paused (t.elapsed mono_now) }
  | _ => t

/-- `PomodoroTimer::reset`. -/
def PomodoroTimer.reset (t : PomodoroTimer) : PomodoroTimer :=
  { t with state := TimerState.Idle }

/-- `PomodoroTimer::advance_phase`; `self.sessions_completed += 1` on a `u8`
is the increment modulo 256. -/
def PomodoroTimer.advance_phase (t : PomodoroTimer) : PomodoroTimer :=
  match t.phase with
  | TimerPhase.Work =>
      let sc := (t.sessions_completed + 1) % 256
      if t.sessions_until_long ≤ sc then
        { t with phase := TimerPhase.LongBreak, sessions_completed := 0,
                 state := TimerState.Idle }
      else
        { t with phase := TimerPhase.ShortBreak, sessions_completed := sc,
                 state := TimerState.Idle }
  | TimerPhase.ShortBreak =>
      { t with phase := TimerPhase.Work, state := TimerState.Idle }
  | TimerPhase.LongBreak =>
      { t with phase := TimerPhase.Work, state := TimerState.Idle }

/-- `PomodoroTimer::skip_break`. -/
def PomodoroTimer.skip_break (t : PomodoroTimer) : PomodoroTimer :=
  if t.phase.is_break then
    { t with phase := TimerPhase.Work, state := TimerState.Idle }
  else t

/-- `Config` from `src/models/session.rs`; the four fields are `i64` in the
source, modelled as `Int`. -/
structure Config where
  work_duration_secs : Int
  short_break_secs : Int
  long_break_secs : Int
  sessions_until_long_break : Int
deriving DecidableEq

/-- `Config::is_valid`. -/
def Config.is_valid (c : Config) : Bool :=
  decide (0 < c.work_duration_secs) && decide (0 < c.short_break_secs)
    && decide (0 < c.long_break_secs) && decide (0 < c.sessions_until_long_break)

/-- `impl Default for Config`. -/
def Config.default : Config :=
  { work_duration_secs := 25 * 60
    short_break_secs := 5 * 60
    long_break_secs := 15 * 60
    sessions_until_long_break := 4 }

/-- The Rust cast `i64 as u64` (two's-complement truncation). -/
def i64_to_u64 (x : Int) : Nat := (x % (2 ^ 64 : Int)).toNat

/-- The Rust cast `i64 as u8` (two's-complement truncation to 8 bits). -/
def i64_to_u8 (x : Int) : Nat := (x % (256 : Int)).toNat

/-- The Rust cast `u64 as i64` (two's-complement reinterpretation). -/
def u64_to_i64 (n : Nat) : Int :=
  if n % 2 ^ 64 < 2 ^ 63 then ((n % 2 ^ 64 : Nat) : Int)
  else ((n % 2 ^ 64 : Nat) : Int) - 2 ^ 64

/-- `PomodoroTimer::apply_config`:
`Duration::from_secs(config.work_duration_secs as u64)` and the
`config.sessions_until_long_break as u8` cast. -/
def PomodoroTimer.apply_config (t : PomodoroTimer) (config : Config) : PomodoroTimer :=
  { t with
    work_duration := i64_to_u64 config.work_duration_secs
    short_break := i64_to_u64 config.short_break_secs
    long_break := i64_to_u64 config.long_break_secs
    sessions_until_long := i64_to_u8 config.sessions_until_long_break }

/-- `Session` from `src/models/session.rs` (timestamps and durations are
`i64` seconds, modelled as `Int`). -/
structure Session where
  id : Option Int
  name : String
  description : Option String
  category : String
  started_at : Int
  ended_at : Int
  duration_secs : Int
deriving DecidableEq

/-- `SessionPhase` from `src/app.rs`. -/
inductive SessionPhase
  | Inactive
  | Ready (session : Session)
  | Active (session : Session) (start_time : Int)
deriving DecidableEq

/-- `NotificationLevel` from `src/app.rs`. -/
inductive NotificationLevel
  | Warning
  | Error
deriving DecidableEq

/-- `Notification` from `src/app.rs`. -/
structure Notification where
  message : String
  level : NotificationLevel
deriving DecidableEq

/-- The slice of `App` from `src/app.rs` that the timer/session core reads
and writes.  `db` is `Option Bool` as described in the header. -/
structure App where
  timer : PomodoroTimer
  session_phase : SessionPhase
  notification : Option Notification
  db : Option Bool
deriving DecidableEq

/-- `App::notify`. -/
def App.notify (a : App) (level : NotificationLevel) (message : String) : App :=
  { a with notification := some { message := message, level := level } }

/-- Modelled from the spec: `Timestamp::from_clock(&clock)` is called in
`src/app.rs` but its definition is not under `src/`.  Per the spec's clock
contract ("`now_timestamp() -> epoch seconds`") it reads the clock's
current Unix timestamp, which the operations receive as the explicit
argument `ts_now`. -/
def Timestamp.from_clock (ts_now : Int) : Int := ts_now

/-- `App::complete_session`.  `ts_now` is the clock's `now_timestamp()`
read by `Timestamp::from_clock`.  Returns the new app state and the list
of sessions passed to `save_session`. -/
def App.complete_session (a : App) (ts_now : Int) : App × List Session :=
  match a.session_phase with
  | SessionPhase.Active session start_time =>
      let end_time := Timestamp.from_clock ts_now
      let session1 : Session :=
        { session with
          started_at := start_time
          ended_at := end_time
          duration_secs := u64_to_i64 a.timer.work_duration }
      let a1 : App :=
        match a.db with
        | some ok =>
            if ok then a
            else a.notify NotificationLevel.Error "Failed to save session!"
        | none => a
      let saves : List Session :=
        match a.db with
        | some _ => [session1]
        | none => []
      ({ a1 with session_phase := SessionPhase.Ready session1 }, saves)
  | other => ({ a with session_phase := other }, [])

/-- `App::stop_session`.  `mono_now` is the monotonic instant at which
`self.timer.elapsed()` is read; `ts_now` is the clock's `now_timestamp()`. -/
def App.stop_session (a : App) (mono_now : Nat) (ts_now : Int) : App × List Session :=
  match a.session_phase with
  | SessionPhase.Active session start_time =>
      let elapsed_secs := u64_to_i64 (a.timer.elapsed mono_now)
      if elapsed_secs = 0 then (a, [])
      else
        let end_time := Timestamp.from_clock ts_now
        let session1 : Session :=
          { session with
            started_at := start_time
            ended_at := end_time
            duration_secs := elapsed_secs }
        let a1 : App :=
          match a.db with
          | some ok =>
              if ok then a
              else a.notify NotificationLevel.Error "Failed to save session!"
          | none => a
        let saves : List Session :=
          match a.db with
          | some _ => [session1]
          | none => []
        ({ a1 with timer := a1.timer.reset,
                   session_phase := SessionPhase.Inactive }, saves)
  | _ => (a, [])

/-- `App::start_timer`.  `mono_now` is the `Instant::now()` read inside
`self.timer.start()`; `ts_now` is the clock's `now_timestamp()`. -/
def App.start_timer (a : App) (mono_now : Nat) (ts_now : Int) : App :=
  let sp :=
    match a.session_phase with
    | SessionPhase.Ready session =>
        SessionPhase.Active session (Timestamp.from_clock ts_now)
    | SessionPhase.Active session _ =>
        SessionPhase.Active session (Timestamp.from_clock ts_now)
    | SessionPhase.Inactive => SessionPhase.Inactive
  { a with session_phase := sp, timer := a.timer.start mono_now }

/-- `App::handle_tick` (the terminal-bell side effect is external and
dropped).  Returns the new app state and the sessions passed to
`save_session` during the tick. -/
def App.handle_tick (a : App) (mono_now : Nat) (ts_now : Int) : App × List Session :=
  if a.timer.is_running && a.timer.is_finished mono_now then
    let p :=
      if a.timer.phase = TimerPhase.Work then a.complete_session ts_now
      else (a, [])
    let a2 : App := { p.1 with timer := p.1.timer.advance_phase }
    ({ a2 with timer := a2.timer.start mono_now }, p.2)
  else (a, [])

/-- The timer states reachable from `PomodoroTimer::default` by the public
operations (`start`, `pause`, `reset`, `advance_phase`, `skip_break`,
`apply_config` with an arbitrary `Config`). -/
inductive Reachable : PomodoroTimer → Prop
  | init : Reachable PomodoroTimer.default
  | start (mono_now : Nat) {t : PomodoroTimer} :
      Reachable t → Reachable (t.start mono_now)
  | pause (mono_now : Nat) {t : PomodoroTimer} :
      Reachable t → Reachable (t.pause mono_now)
  | reset {t : PomodoroTimer} : Reachable t → Reachable t.reset
  | advance {t : PomodoroTimer} : Reachable t → Reachable t.advance_phase
  | skip {t : PomodoroTimer} : Reachable t → Reachable t.skip_break
  | config (c : Config) {t : PomodoroTimer} :
      Reachable t → Reachable (t.apply_config c)

/-- A concrete session draft (placeholder time fields), used to instantiate
the theorems on concrete inputs. -/
def sampleSession : Session :=
  { id := none
    name := "Write spec"
    description := none
    category := "coding"
    started_at := 0
    ended_at := 0
    duration_secs := 0 }

/-- A concrete app state: default timer running since instant 0, an active
session draft started at timestamp 10, a database whose saves succeed. -/
def sampleApp : App :=
  { timer := { PomodoroTimer.default with state := TimerState.Running 0 0 }
    session_phase := SessionPhase.Active sampleSession 10
    notification := none
    db := some true }

/-- The cast `u64 as i64` is the identity below `2 ^ 63`. -/
theorem u64_to_i64_of_lt {n : Nat} (h : n < 2 ^ 63) : u64_to_i64 n = (n : Int) := by
  have h2 : n < 2 ^ 64 := lt_trans h (by norm_num)
  have hm : n % 2 ^ 64 = n := Nat.mod_eq_of_lt h2
  unfold u64_to_i64
  rw [hm, if_pos h]

/-- Every branch of `advance_phase` resets the run-state to `Idle`. -/
theorem advance_phase_state_eq (t : PomodoroTimer) :
    t.advance_phase.state = TimerState.Idle := by
  obtain ⟨ph, st, wd, sb, lb, sul, sc⟩ := t
  cases ph
  · simp only [PomodoroTimer.advance_phase]
    split <;> rfl
  · rfl
  · rfl

/-- `start` never changes the phase. -/
theorem start_phase_eq (t : PomodoroTimer) (mono_now : Nat) :
    (t.start mono_now).phase = t.phase := by
  cases h : t.state <;> simp [PomodoroTimer.start, h]

/-- `start` right after `advance_phase` always yields a running timer. -/
theorem advance_start_running (t : PomodoroTimer) (mono_now : Nat) :
    ((t.advance_phase).start mono_now).is_running = true := by
  have h := advance_phase_state_eq t
  simp [PomodoroTimer.start, h, PomodoroTimer.is_running]

/-- `complete_session` never touches the timer engine. -/
theorem complete_session_timer_eq (a : App) (ts_now : Int) :
    (a.complete_session ts_now).1.timer = a.timer := by
  obtain ⟨tm, sp, no, db⟩ := a
  cases sp
  · rfl
  · rfl
  · cases db with
    | none => rfl
    | some b => cases b <;> rfl

/-- In every reachable timer state the completed-session counter is at most
254 and the long-break threshold (a `u8` cast) is at most 255. -/
theorem reachable_bounds (t : PomodoroTimer) (h : Reachable t) :
    t.sessions_completed ≤ 254 ∧ t.sessions_until_long ≤ 255 := by
  induction h with
  | init => exact ⟨by decide, by decide⟩
  | start mono_now hr ih =>
      rename_i t
      cases hst : t.state <;> simpa [PomodoroTimer.start, hst] using ih
  | pause mono_now hr ih =>
      rename_i t
      cases hst : t.state <;> simpa [PomodoroTimer.pause, hst] using ih
  | reset hr ih => simpa [PomodoroTimer.reset] using ih
  | advance hr ih =>
      rename_i t
      obtain ⟨h1, h2⟩ := ih
      cases hp : t.phase
      · simp only [PomodoroTimer.advance_phase, hp]
        split
        · exact ⟨by simpa using Nat.zero_le 254, by simpa using h2⟩
        · rename_i hc
          constructor
          · simp only []
            omega
          · simpa using h2
      · simpa [PomodoroTimer.advance_phase, hp] using ⟨h1, h2⟩
      · simpa [PomodoroTimer.advance_phase, hp] using ⟨h1, h2⟩
  | skip hr ih =>
      rename_i t
      by_cases hb : t.phase.is_break <;> simpa [PomodoroTimer.skip_break, hb] using ih
  | config c hr ih =>
      refine ⟨by simpa [PomodoroTimer.apply_config] using ih.1, ?_⟩
      simp only [PomodoroTimer.apply_config, i64_to_u8]
      omega

/-- Claim C1: for every timer state, `advance_phase` from `Work` increments
the (u8) completed-session counter; if it reaches the threshold the phase
becomes `LongBreak` and the counter resets to 0, otherwise `ShortBreak`;
from either break the phase becomes `Work` with the counter untouched; in
every case the run-state becomes `Idle`.  Moreover, from the default state
(phase `Work`, counter 0, threshold 4) the Work/ShortBreak alternation
yields `LongBreak` exactly on the 4th work completion (the 7th call), with
the counter reset to 0 immediately after. -/
theorem advance_phase_spec (t : PomodoroTimer) :
    (t.advance_phase.state = TimerState.Idle)
    ∧ (t.phase = TimerPhase.Work →
        (t.sessions_until_long ≤ (t.sessions_completed + 1) % 256 →
          t.advance_phase.phase = TimerPhase.LongBreak
            ∧ t.advance_phase.sessions_completed = 0)
        ∧ ((t.sessions_completed + 1) % 256 < t.sessions_until_long →
          t.advance_phase.phase = TimerPhase.ShortBreak
            ∧ t.advance_phase.sessions_completed = (t.sessions_completed + 1) % 256))
    ∧ (t.phase = TimerPhase.ShortBreak ∨ t.phase = TimerPhase.LongBreak →
        t.advance_phase.phase = TimerPhase.Work
          ∧ t.advance_phase.sessions_completed = t.sessions_completed)
    ∧ ((List.range 7).map
          (fun k => (PomodoroTimer.advance_phase^[k + 1] PomodoroTimer.default).phase)
        = [TimerPhase.ShortBreak, TimerPhase.Work, TimerPhase.ShortBreak, TimerPhase.Work,
           TimerPhase.ShortBreak, TimerPhase.Work, TimerPhase.LongBreak]
        ∧ (PomodoroTimer.advance_phase^[7] PomodoroTimer.default).sessions_completed = 0) := by
  refine ⟨advance_phase_state_eq t, ?_, ?_, by decide⟩
  · obtain ⟨ph, st, wd, sb, lb, sul, sc⟩ := t
    intro h
    subst h
    simp only [PomodoroTimer.advance_phase]
    constructor
    · intro hge
      split
      · exact ⟨rfl, rfl⟩
      · rename_i hc
        exact absurd hge (by simpa using hc)
    · intro hlt
      split
      · rename_i hc
        omega
      · exact ⟨rfl, rfl⟩
  · obtain ⟨ph, st, wd, sb, lb, sul, sc⟩ := t
    rintro (h | h) <;> subst h <;> simp [PomodoroTimer.advance_phase]

/-- Witness for C1: the theorem evaluated at the default timer. -/
theorem advance_phase_spec_witness :
    PomodoroTimer.default.advance_phase.state = TimerState.Idle :=
  (advance_phase_spec PomodoroTimer.default).1

/-- Claim C2: from an active session, `complete_session` records
`duration_secs` equal to the configured work duration (regardless of the
measured elapsed time) and moves the session phase to `Ready` retaining the
finalized draft; `stop_session` with nonzero measured elapsed records
`duration_secs` equal to the measured elapsed seconds, resets the timer
engine to `Idle` and moves the session phase to `Inactive` with no draft
retained. -/
theorem session_duration_asymmetry (a : App) (s : Session) (st ts_now : Int)
    (mono_now : Nat) (ok : Bool)
    (hphase : a.session_phase = SessionPhase.Active s st)
    (hdb : a.db = some ok) (hwd : a.timer.work_duration < 2 ^ 63) :
    ((a.complete_session ts_now).1.session_phase
        = SessionPhase.Ready { s with
                               started_at := st
                               ended_at := ts_now
                               duration_secs := (a.timer.work_duration : Int) })
    ∧ ((a.complete_session ts_now).2
        = [{ s with
             started_at := st
             ended_at := ts_now
             duration_secs := (a.timer.work_duration : Int) }])
    ∧ (0 < a.timer.elapsed mono_now → a.timer.elapsed mono_now < 2 ^ 63 →
        ((a.stop_session mono_now ts_now).1.session_phase = SessionPhase.Inactive)
        ∧ ((a.stop_session mono_now ts_now).1.timer.state = TimerState.Idle)
        ∧ ((a.stop_session mono_now ts_now).2
            = [{ s with
                 started_at := st
                 ended_at := ts_now
                 duration_secs := (a.timer.elapsed mono_now : Int) }])) := by
  have hcast : u64_to_i64 a.timer.work_duration = (a.timer.work_duration : Int) :=
    u64_to_i64_of_lt hwd
  refine ⟨?_, ?_, ?_⟩
  · simp [App.complete_session, hphase, hdb, Timestamp.from_clock, hcast, App.notify]
  · simp [App.complete_session, hphase, hdb, Timestamp.from_clock, hcast]
  · intro he1 he2
    have hcast2 : u64_to_i64 (a.timer.elapsed mono_now) = (a.timer.elapsed mono_now : Int) :=
      u64_to_i64_of_lt he2
    have hne : u64_to_i64 (a.timer.elapsed mono_now) ≠ 0 := by
      rw [hcast2]
      omega
    have hne0 : a.timer.elapsed mono_now ≠ 0 := by omega
    refine ⟨?_, ?_, ?_⟩ <;>
      simp [App.stop_session, hphase, hdb, Timestamp.from_clock, hcast2, hne, hne0,
        PomodoroTimer.reset, App.notify]

/-- Witness for C2: with the default 1500-second work duration, completion
records 1500 while an early stop at measured elapsed 42 records 42. -/
theorem session_duration_asymmetry_witness :
    ((sampleApp.complete_session 100).1.session_phase
        = SessionPhase.Ready { sampleSession with
                               started_at := 10
                               ended_at := 100
                               duration_secs := (sampleApp.timer.work_duration : Int) })
    ∧ ((sampleApp.stop_session 42 100).2
        = [{ sampleSession with
             started_at := 10
             ended_at := 100
             duration_secs := (sampleApp.timer.elapsed 42 : Int) }]) := by
  have h := session_duration_asymmetry sampleApp sampleSession 10 100 42 true rfl rfl
    (by decide)
  exact ⟨h.1, (h.2.2 (by decide) (by decide)).2.2⟩

/-- Claim C3: on a tick, exactly when the timer is running and finished, the
orchestrator completes the session first (if the finishing phase is `Work`,
with the old timer still in place), then advances the phase, then starts the
timer, leaving it running in the successor phase; otherwise the tick changes
nothing and persists nothing. -/
theorem handle_tick_spec (a : App) (mono_now : Nat) (ts_now : Int) :
    (a.timer.is_running = true → a.timer.is_finished mono_now = true →
        ((a.handle_tick mono_now ts_now).1.timer
            = (a.timer.advance_phase).start mono_now)
        ∧ ((a.handle_tick mono_now ts_now).1.timer.is_running = true)
        ∧ ((a.handle_tick mono_now ts_now).1.timer.phase = a.timer.advance_phase.phase)
        ∧ (a.timer.phase = TimerPhase.Work →
            ((a.handle_tick mono_now ts_now).1.session_phase
                = (a.complete_session ts_now).1.session_phase)
            ∧ ((a.handle_tick mono_now ts_now).1.notification
                = (a.complete_session ts_now).1.notification)
            ∧ ((a.handle_tick mono_now ts_now).2 = (a.complete_session ts_now).2))
        ∧ (a.timer.phase ≠ TimerPhase.Work →
            ((a.handle_tick mono_now ts_now).1.session_phase = a.session_phase)
            ∧ ((a.handle_tick mono_now ts_now).2 = [])))
    ∧ (¬(a.timer.is_running = true ∧ a.timer.is_finished mono_now = true) →
        a.handle_tick mono_now ts_now = (a, [])) := by
  constructor
  · intro hr hf
    by_cases hw : a.timer.phase = TimerPhase.Work
    · have htimer : (a.complete_session ts_now).1.timer = a.timer :=
        complete_session_timer_eq a ts_now
      refine ⟨?_, ?_, ?_, ?_, ?_⟩
      · simp [App.handle_tick, hr, hf, hw, htimer]
      · simp [App.handle_tick, hr, hf, hw, htimer, advance_start_running]
      · simp [App.handle_tick, hr, hf, hw, htimer, start_phase_eq]
      · intro _
        refine ⟨?_, ?_, ?_⟩ <;> simp [App.handle_tick, hr, hf, hw]
      · intro hnw
        exact absurd hw hnw
    · refine ⟨?_, ?_, ?_, ?_, ?_⟩
      · simp [App.handle_tick, hr, hf, hw]
      · simp [App.handle_tick, hr, hf, hw, advance_start_running]
      · simp [App.handle_tick, hr, hf, hw, start_phase_eq]
      · intro hww
        exact absurd hww hw
      · intro _
        constructor <;> simp [App.handle_tick, hr, hf, hw]
  · intro hn
    have hc : (a.timer.is_running && a.timer.is_finished mono_now) = false := by
      cases h1 : a.timer.is_running <;> cases h2 : a.timer.is_finished mono_now <;>
        simp_all
    simp [App.handle_tick, hc]

/-- Witness for C3: a tick on the sample app (running work timer, finished
at instant 1500) leaves the timer running in the successor phase. -/
theorem handle_tick_spec_witness :
    ((sampleApp.handle_tick 1500 100).1.timer.is_running = true)
    ∧ ((sampleApp.handle_tick 1500 100).1.timer.phase
        = sampleApp.timer.advance_phase.phase) := by
  have h := (handle_tick_spec sampleApp 1500 100).1 rfl (by decide)
  exact ⟨h.2.1, h.2.2.1⟩

/-- Claim C4: the elapsed value is conserved across `pause` (the `Paused`
state stores exactly the value computed at the pause), `pause` is a no-op
from `Idle` and `Paused`, and `start` from `Paused` resumes with
`elapsed_before_pause` equal to the stored value, so pause/resume cycles
accumulate elapsed time additively. -/
theorem pause_resume_spec (t : PomodoroTimer) (mono_now later mono_now2 : Nat)
    (h : mono_now ≤ mono_now2) :
    ((t.pause mono_now).elapsed later = t.elapsed mono_now)
    ∧ (t.state = TimerState.Idle → t.pause mono_now = t)
    ∧ (∀ e, t.state = TimerState.Paused e → t.pause mono_now = t)
    ∧ (∀ e, t.state = TimerState.Paused e →
        (t.start mono_now).state = TimerState.Running mono_now e
        ∧ (t.start mono_now).elapsed mono_now2 = e + (mono_now2 - mono_now)
        ∧ ((t.start mono_now).pause mono_now2).elapsed later = e + (mono_now2 - mono_now)) := by
  obtain ⟨ph, st, wd, sb, lb, sul, sc⟩ := t
  refine ⟨?_, ?_, ?_, ?_⟩
  · cases st <;> simp [PomodoroTimer.pause, PomodoroTimer.elapsed]
  · intro hst
    simp only at hst
    subst hst
    rfl
  · intro e hst
    simp only at hst
    subst hst
    rfl
  · intro e hst
    simp only at hst
    subst hst
    refine ⟨rfl, rfl, ?_⟩
    simp [PomodoroTimer.start, PomodoroTimer.pause, PomodoroTimer.elapsed]

/-- Witness for C4: resuming a timer paused at 5 seconds and reading it 10
seconds later yields 15 accumulated seconds. -/
theorem pause_resume_spec_witness :
    (({ PomodoroTimer.default with state := TimerState.Paused 5 }.start 10).elapsed 20)
      = 5 + (20 - 10) := by
  have h := pause_resume_spec { PomodoroTimer.default with state := TimerState.Paused 5 }
    10 11 20 (by decide)
  exact (h.2.2.2 5 rfl).2.1

/-- Claim C5: when `save_session` fails inside `complete_session`, the
in-memory transition is exactly the one performed on success (session phase
to `Ready` with the finalized draft, timer untouched), and the failure is
surfaced only as a notification. -/
theorem complete_session_failure_transition (a : App) (s : Session) (st ts_now : Int)
    (hphase : a.session_phase = SessionPhase.Active s st) (hdb : a.db = some false) :
    ((a.complete_session ts_now).1.session_phase
        = (({ a with db := some true }).complete_session ts_now).1.session_phase)
    ∧ ((a.complete_session ts_now).1.timer
        = (({ a with db := some true }).complete_session ts_now).1.timer)
    ∧ ((a.complete_session ts_now).1.session_phase
        = SessionPhase.Ready { s with
                               started_at := st
                               ended_at := ts_now
                               duration_secs := u64_to_i64 a.timer.work_duration })
    ∧ ((a.complete_session ts_now).1.notification
        = some { message := "Failed to save session!", level := NotificationLevel.Error }) := by
  refine ⟨?_, ?_, ?_, ?_⟩ <;>
    simp [App.complete_session, hphase, hdb, Timestamp.from_clock, App.notify]

/-- Witness for C5: the sample app with a failing database still surfaces
the error as a notification while completing in memory. -/
theorem complete_session_failure_transition_witness :
    ({ sampleApp with db := some false }.complete_session 100).1.notification
      = some { message := "Failed to save session!", level := NotificationLevel.Error } :=
  (complete_session_failure_transition { sampleApp with db := some false }
    sampleSession 10 100 rfl rfl).2.2.2

/-- Claim C6: `stop_session` with measured elapsed time zero is a complete
no-op (state unchanged, nothing persisted), and it is likewise a no-op from
`Inactive` or `Ready`. -/
theorem stop_session_zero_noop (a : App) (mono_now : Nat) (ts_now : Int) :
    (a.timer.elapsed mono_now = 0 → a.stop_session mono_now ts_now = (a, []))
    ∧ (a.session_phase = SessionPhase.Inactive → a.stop_session mono_now ts_now = (a, []))
    ∧ (∀ s, a.session_phase = SessionPhase.Ready s →
        a.stop_session mono_now ts_now = (a, [])) := by
  refine ⟨?_, ?_, ?_⟩
  · intro he
    cases hp : a.session_phase
    · simp [App.stop_session, hp]
    · simp [App.stop_session, hp]
    · have h0 : u64_to_i64 0 = (0 : Int) := by decide
      simp [App.stop_session, hp, he, h0]
  · intro hp
    simp [App.stop_session, hp]
  · intro s hp
    simp [App.stop_session, hp]

/-- Witness for C6: stopping the sample app at measured elapsed 0 changes
nothing and persists nothing. -/
theorem stop_session_zero_noop_witness :
    sampleApp.stop_session 0 100 = (sampleApp, []) :=
  (stop_session_zero_noop sampleApp 0 100).1 rfl

/-- Claim C7: `apply_config` with a validated (in-range) `Config` sets the
three phase durations and the long-break threshold from the config and
changes nothing else: phase, run-state and completed-session counter are
untouched. -/
theorem apply_config_frame (t : PomodoroTimer) (c : Config) (hv : c.is_valid = true)
    (hw : c.work_duration_secs < 2 ^ 63) (hs : c.short_break_secs < 2 ^ 63)
    (hl : c.long_break_secs < 2 ^ 63) :
    ((t.apply_config c).phase = t.phase)
    ∧ ((t.apply_config c).state = t.state)
    ∧ ((t.apply_config c).sessions_completed = t.sessions_completed)
    ∧ ((t.apply_config c).work_duration = c.work_duration_secs.toNat)
    ∧ ((t.apply_config c).short_break = c.short_break_secs.toNat)
    ∧ ((t.apply_config c).long_break = c.long_break_secs.toNat)
    ∧ ((t.apply_config c).sessions_until_long = i64_to_u8 c.sessions_until_long_break) := by
  simp only [Config.is_valid, Bool.and_eq_true, decide_eq_true_eq] at hv
  obtain ⟨⟨⟨h1, h2⟩, h3⟩, h4⟩ := hv
  refine ⟨rfl, rfl, rfl, ?_, ?_, ?_, rfl⟩ <;>
    simp only [PomodoroTimer.apply_config, i64_to_u64] <;> omega

/-- Witness for C7: applying the default config to the default timer keeps
the phase and stores the configured work duration. -/
theorem apply_config_frame_witness :
    ((PomodoroTimer.default.apply_config Config.default).phase = PomodoroTimer.default.phase)
    ∧ ((PomodoroTimer.default.apply_config Config.default).work_duration
        = Config.default.work_duration_secs.toNat) := by
  have h := apply_config_frame PomodoroTimer.default Config.default
    (by decide) (by decide) (by decide) (by decide)
  exact ⟨h.1, h.2.2.2.1⟩

/-- Claim C8: `start_timer` moves both `Ready(draft)` and
`Active(draft, _)` to `Active(draft, ts_now)` (refreshing `start_time` even
when already active), leaves `Inactive` alone, and always calls the timer
engine's `start`. -/
theorem start_timer_spec (a : App) (mono_now : Nat) (ts_now : Int) :
    (∀ s, a.session_phase = SessionPhase.Ready s →
        (a.start_timer mono_now ts_now).session_phase = SessionPhase.Active s ts_now)
    ∧ (∀ s st, a.session_phase = SessionPhase.Active s st →
        (a.start_timer mono_now ts_now).session_phase = SessionPhase.Active s ts_now)
    ∧ (a.session_phase = SessionPhase.Inactive →
        (a.start_timer mono_now ts_now).session_phase = SessionPhase.Inactive)
    ∧ ((a.start_timer mono_now ts_now).timer = a.timer.start mono_now) := by
  refine ⟨?_, ?_, ?_, rfl⟩
  · intro s hp
    simp [App.start_timer, hp, Timestamp.from_clock]
  · intro s st hp
    simp [App.start_timer, hp, Timestamp.from_clock]
  · intro hp
    simp [App.start_timer, hp]

/-- Witness for C8: starting the sample app (already active, start_time 10)
refreshes the start_time to the clock value 100. -/
theorem start_timer_spec_witness :
    (sampleApp.start_timer 5 100).session_phase = SessionPhase.Active sampleSession 100 := by
  have h := start_timer_spec sampleApp 5 100
  exact h.2.1 sampleSession 10 rfl

/-- Claim C9: `apply_config` stores the configured
`sessions_until_long_break` reduced modulo 256 (the `i64 as u8` cast); a
positive multiple of 256 passes `Config::is_valid` yet yields a live
threshold of 0, differing from the configured value, after which every
completed `Work` phase goes straight to `LongBreak`. -/
theorem apply_config_threshold_mod (t : PomodoroTimer) (c : Config) (k : Int)
    (hk : 0 < k) (hw : 0 < c.work_duration_secs) (hs : 0 < c.short_break_secs)
    (hl : 0 < c.long_break_secs) (hm : c.sessions_until_long_break = 256 * k) :
    ((t.apply_config c).sessions_until_long = (c.sessions_until_long_break % 256).toNat)
    ∧ c.is_valid = true
    ∧ (t.apply_config c).sessions_until_long = 0
    ∧ ((t.apply_config c).sessions_until_long : Int) ≠ c.sessions_until_long_break
    ∧ (t.phase = TimerPhase.Work →
        ((t.apply_config c).advance_phase.phase = TimerPhase.LongBreak
          ∧ (t.apply_config c).advance_phase.sessions_completed = 0)) := by
  have h0 : i64_to_u8 c.sessions_until_long_break = 0 := by
    simp only [i64_to_u8, hm]
    omega
  refine ⟨rfl, ?_, ?_, ?_, ?_⟩
  · simp only [Config.is_valid, Bool.and_eq_true, decide_eq_true_eq]
    refine ⟨⟨⟨hw, hs⟩, hl⟩, by omega⟩
  · simpa [PomodoroTimer.apply_config] using h0
  · simp only [PomodoroTimer.apply_config]
    rw [h0, hm]
    intro hc
    omega
  · intro hph
    have hph2 : (t.apply_config c).phase = TimerPhase.Work := hph
    simp only [PomodoroTimer.advance_phase, hph2]
    have hth : (t.apply_config c).sessions_until_long = 0 := by
      simpa [PomodoroTimer.apply_config] using h0
    rw [hth]
    simp

/-- Witness for C9: a config with `sessions_until_long_break = 256` is
accepted as valid yet the live threshold becomes 0 and the next completed
work phase goes to `LongBreak`. -/
theorem apply_config_threshold_mod_witness :
    ((PomodoroTimer.default.apply_config
        { Config.default with sessions_until_long_break := 256 }).sessions_until_long = 0)
    ∧ ((PomodoroTimer.default.apply_config
        { Config.default with sessions_until_long_break := 256 }).advance_phase.phase
          = TimerPhase.LongBreak) := by
  have h := apply_config_threshold_mod PomodoroTimer.default
    { Config.default with sessions_until_long_break := 256 } 1
    (by decide) (by decide) (by decide) (by decide) (by decide)
  exact ⟨h.2.2.1, (h.2.2.2.2 rfl).1⟩

/-- Claim C10: in every state reachable from the default timer by the public
operations, the completed-session counter stays at most 254, so the `u8`
increment inside `advance_phase` never wraps around. -/
theorem sessions_completed_no_wrap (t : PomodoroTimer) (h : Reachable t) :
    t.sessions_completed ≤ 254
    ∧ (t.sessions_completed + 1) % 256 = t.sessions_completed + 1 := by
  obtain ⟨h1, _⟩ := reachable_bounds t h
  exact ⟨h1, by omega⟩

/-- Witness for C10: the bound evaluated at the (reachable) default timer. -/
theorem sessions_completed_no_wrap_witness :
    PomodoroTimer.default.sessions_completed ≤ 254
    ∧ (PomodoroTimer.default.sessions_completed + 1) % 256
        = PomodoroTimer.default.sessions_completed + 1 :=
  sessions_completed_no_wrap PomodoroTimer.default Reachable.init
